import Mathlib

/-!
Verification of the balancing market and inter-area forwarding engine of
gsy-e against its specification.

The development shallowly embeds, over exact rational arithmetic:
  - BalancingMarket (src/gsy_e/models/market/balancing.py): balancing_offer,
    split_offer, accept_offer, delete_balancing_offer, offer, and the
    accumulated-trade statistics;
  - IAAEngine / BalancingEngine (src/gsy_e/models/strategy/area_agents/
    one_sided_engine.py): the forwarded-offers bookkeeping, propagate_offer,
    event_offer_traded, event_offer_deleted and event_offer_split.

Python dictionaries are represented as association lists with first-match
lookup; uuid4 id generation is represented by a fresh-id counter in the
market state; calls into collaborator objects that are not part of the
sources (the owner strategy, the paired market of the base IAAEngine, the
fee class of OneSidedMarket) are represented by explicit oracle arguments
carrying the outcome of the call, and are marked as modelled from the spec.
-/

namespace GsyE

/-- Modelled from the spec: FLOATING_POINT_TOLERANCE from gsy_e.constants
(not under src/), the small positive tolerance epsilon used by the
floating-point comparisons. -/
def FLOATING_POINT_TOLERANCE : ℚ := 1 / 100000

/-- A balancing offer (gsy_framework.data_classes.BalancingOffer).  Prices are
totals, energy is signed (positive supply, negative demand); the derived
energy rate is price / energy.  Opaque fields that no modelled operation
inspects (creation_time, attributes, requirements, time_slot and the id
variants of the origin fields) are omitted. -/
structure BalancingOffer where
  id : Nat
  price : ℚ
  energy : ℚ
  seller : String
  original_price : Option ℚ
  seller_origin : Option String
deriving Repr, DecidableEq

/-- Derived energy rate of an offer: price divided by energy. -/
def BalancingOffer.energy_rate (o : BalancingOffer) : ℚ := o.price / o.energy

/-- Modelled from the spec: Offer.update_price of gsy_framework (offers are
value types replaced wholesale; updating the price replaces that field). -/
def BalancingOffer.update_price (o : BalancingOffer) (p : ℚ) : BalancingOffer :=
  { o with price := p }

/-- A completed balancing trade (gsy_framework.data_classes.BalancingTrade). -/
structure BalancingTrade where
  id : Nat
  offer_bid : BalancingOffer
  seller : String
  buyer : String
  residual : Option BalancingOffer
  fee_price : ℚ
  seller_origin : Option String
  buyer_origin : Option String
deriving Repr, DecidableEq

/-- The exceptions raised by the modelled code.  The taxonomy follows
gsy_e.gsy_e_core.exceptions (not under src/) plus the builtin Python errors
the code can hit: assertionError for a failed assert statement, typeError
for an invalid dynamic operation (comparing None with a number, unpacking a
scalar into a tuple), keyError for a missing dict subscript, runtimeError
for an explicitly raised RuntimeError. -/
inductive MarketErr where
  | marketReadOnly
  | offerNotFound
  | invalidOffer
  | invalidBalancingTrade (msg : String)
  | deviceNotInRegistry
  | assertionError
  | typeError
  | keyError
  | runtimeError
deriving Repr, DecidableEq

/-- Modelled from the spec: which exceptions are MarketException subclasses
in gsy_e.gsy_e_core.exceptions (not under src/).  OfferNotFoundException,
MarketReadOnlyException, InvalidOffer and InvalidBalancingTradeException all
derive from MarketException; DeviceNotInRegistryError and the builtin Python
errors do not. -/
def MarketErr.isMarketException : MarketErr → Bool
  | .marketReadOnly => true
  | .offerNotFound => true
  | .invalidOffer => true
  | .invalidBalancingTrade _ => true
  | _ => false

/-- Market notifications dispatched through _notify_listeners, in emission
order (gsy_e.events.event_structures.MarketEvent). -/
inductive MarketEvt where
  | balancingOffer (offer : BalancingOffer)
  | balancingOfferSplit (original accepted residual : BalancingOffer)
  | balancingTrade (trade : BalancingTrade)
  | balancingOfferDeleted (offer : BalancingOffer)
deriving Repr, DecidableEq

/-- First-match lookup in an association list, the embedding of a Python
dict subscript / .get. -/
def lookupD {β : Type} (l : List (Nat × β)) (k : Nat) : Option β :=
  match l.find? (fun p => p.1 == k) with
  | some p => some p.2
  | none => none

/-- Removal of a key, the embedding of dict.pop (dict keys are unique, so
removing every entry with the key agrees with removing the entry). -/
def popD {β : Type} (l : List (Nat × β)) (k : Nat) : List (Nat × β) :=
  l.filter (fun p => p.1 != k)

/-- Key assignment, the embedding of a Python dict store: replace the entry
in place when the key is present, append at the end otherwise. -/
def setD {β : Type} (l : List (Nat × β)) (k : Nat) (v : β) : List (Nat × β) :=
  if l.any (fun p => p.1 == k) then
    l.map (fun p => if p.1 == k then (k, v) else p)
  else
    l ++ [(k, v)]

/-- State of one BalancingMarket: the offer book, the offer history, the
notifications emitted so far, the readonly flag, the accumulated balancing
trade statistics, the grid-fee configuration of the market's fee class, and
two counters standing in for uuid4 ids (fresh offer ids, fresh trade ids
from the default settlement hook). -/
structure MarketState where
  offers : List (Nat × BalancingOffer)
  offer_history : List BalancingOffer
  events : List MarketEvt
  readonly : Bool
  is_constant_fees : Bool
  grid_fee_rate : ℚ
  accumulated_supply_balancing_trade_price : ℚ
  accumulated_supply_balancing_trade_energy : ℚ
  accumulated_demand_balancing_trade_price : ℚ
  accumulated_demand_balancing_trade_energy : ℚ
  nextId : Nat
  nextTradeId : Nat
deriving Repr, DecidableEq

namespace BalancingMarket

/-- BalancingMarket.offer (balancing.py lines 52-63): the generic spot-market
submission entry point of a balancing market is `assert False`, which raises
AssertionError before touching any state. -/
def offer (st : MarketState) (price energy : ℚ) (seller : String) :
    Except MarketErr (BalancingOffer × MarketState) :=
  let _ := (price, energy, seller, st)
  .error .assertionError

/-- Modelled from the spec: OneSidedMarket._calculate_original_prices (parent
class, not under src/) returns the pre-fee price of an offer: its stored
original_price when present, its price otherwise. -/
def _calculate_original_prices (o : BalancingOffer) : ℚ :=
  match o.original_price with
  | some p => p
  | none => o.price

/-- BalancingMarket.balancing_offer (balancing.py lines 65-96).  The device
registry is passed explicitly (DeviceRegistry.REGISTRY is ambient global
state in the source). -/
def balancing_offer (st : MarketState) (registry : List String)
    (price energy : ℚ) (seller : String)
    (original_price : Option ℚ) (offer_id : Option Nat)
    (from_agent : Bool) (adapt_price_with_fees : Bool)
    (dispatch_event : Bool) (seller_origin : Option String) :
    Except MarketErr (BalancingOffer × MarketState) :=
  if seller ∉ registry ∧ ¬ from_agent then
    .error .deviceNotInRegistry
  else if st.readonly then
    .error .marketReadOnly
  else if energy = 0 then
    .error .invalidOffer
  else
    let price :=
      if adapt_price_with_fees then
        if st.is_constant_fees then price + st.grid_fee_rate * energy
        else price * (1 + st.grid_fee_rate)
      else price
    let idAndSt : Nat × MarketState :=
      match offer_id with
      | some i => (i, st)
      | none => (st.nextId, { st with nextId := st.nextId + 1 })
    let oid := idAndSt.1
    let st := idAndSt.2
    let o : BalancingOffer :=
      { id := oid, price := price, energy := energy, seller := seller,
        original_price := original_price, seller_origin := seller_origin }
    let st := { st with offers := setD st.offers o.id o,
                        offer_history := st.offer_history ++ [o] }
    let st :=
      if dispatch_event then { st with events := st.events ++ [.balancingOffer o] }
      else st
    .ok (o, st)

/-- BalancingMarket.split_offer (balancing.py lines 98-145): remove the
original offer, re-post the accepted part under the original id and the
residual part under a fresh id, apportion the pre-fee price linearly, then
emit the BALANCING_OFFER_SPLIT notification.  The bc_interface.change_offer
call of the default (non-blockchain) interface is a state no-op. -/
def split_offer (st : MarketState) (registry : List String)
    (original_offer : BalancingOffer) (energy : ℚ)
    (orig_offer_price : Option ℚ) :
    Except MarketErr (BalancingOffer × BalancingOffer × MarketState) :=
  let st := { st with offers := popD st.offers original_offer.id }
  match balancing_offer st registry
      (original_offer.price * (energy / original_offer.energy)) energy
      original_offer.seller none (some original_offer.id)
      true false false original_offer.seller_origin with
  | .error e => .error e
  | .ok (accepted_offer, st) =>
    let residual_price := (1 - energy / original_offer.energy) * original_offer.price
    let residual_energy := original_offer.energy - energy
    let orig_offer_price :=
      match orig_offer_price with
      | some p => p
      | none => _calculate_original_prices original_offer
    let original_residual_price :=
      ((original_offer.energy - energy) / original_offer.energy) * orig_offer_price
    match balancing_offer st registry residual_price residual_energy
        original_offer.seller (some original_residual_price) none
        true false false original_offer.seller_origin with
    | .error e => .error e
    | .ok (residual_offer, st) =>
      let st := { st with events := st.events ++
        [.balancingOfferSplit original_offer accepted_offer residual_offer] }
      .ok (accepted_offer, residual_offer, st)

/-- BalancingMarket._update_accumulated_trade_price_energy (balancing.py
lines 249-255). -/
def _update_accumulated_trade_price_energy (st : MarketState)
    (trade : BalancingTrade) : MarketState :=
  if 0 < trade.offer_bid.energy then
    { st with
      accumulated_supply_balancing_trade_price :=
        st.accumulated_supply_balancing_trade_price + trade.offer_bid.price
      accumulated_supply_balancing_trade_energy :=
        st.accumulated_supply_balancing_trade_energy + trade.offer_bid.energy }
  else if trade.offer_bid.energy < 0 then
    { st with
      accumulated_demand_balancing_trade_price :=
        st.accumulated_demand_balancing_trade_price + trade.offer_bid.price
      accumulated_demand_balancing_trade_energy :=
        st.accumulated_demand_balancing_trade_energy + |trade.offer_bid.energy| }
  else st

/-- Modelled from the spec: MarketBase._update_stats_after_trade (parent
class, not under src/) updates the aggregate trade statistics exactly once
per trade; for the balancing market this runs
_update_accumulated_trade_price_energy. -/
def _update_stats_after_trade (st : MarketState) (trade : BalancingTrade) :
    MarketState :=
  _update_accumulated_trade_price_energy st trade

/-- The Python chained comparison on balancing.py line 167,
(offer.energy > 0 > energy) or (offer.energy < 0 < energy), evaluated with
Python semantics: when the requested energy is None (the argument was
omitted) and the offer energy is nonzero, the comparison of None with 0
raises TypeError. -/
def balancingSignCheck (offerEnergy : ℚ) (energy : Option ℚ) :
    Except MarketErr Bool :=
  if 0 < offerEnergy then
    match energy with
    | none => .error .typeError
    | some e => .ok (e < 0)
  else if offerEnergy < 0 then
    match energy with
    | none => .error .typeError
    | some e => .ok (0 < e)
  else .ok false

/-- Shared tail of accept_offer (balancing.py lines 211-234): remove the
accepted offer from the book, run the settlement hook, build the trade,
track statistics unless the trade was already tracked, and emit the
BALANCING_TRADE notification.  The default settlement hook
(handle_blockchain_trade_event of the non-blockchain interface, not under
src/) is modelled from the spec: it generates a local unique trade id and
passes the residual offer through unchanged. -/
def accept_offer_finish (st : MarketState) (offer : BalancingOffer)
    (residual_offer : Option BalancingOffer) (fees : ℚ)
    (buyer : String) (buyer_origin : Option String)
    (already_tracked : Bool) : BalancingTrade × MarketState :=
  let st := { st with offers := popD st.offers offer.id }
  let trade_id := st.nextTradeId
  let st := { st with nextTradeId := st.nextTradeId + 1 }
  let trade : BalancingTrade :=
    { id := trade_id, offer_bid := offer, seller := offer.seller,
      buyer := buyer, residual := residual_offer, fee_price := fees,
      seller_origin := offer.seller_origin, buyer_origin := buyer_origin }
  let st := if already_tracked = false then _update_stats_after_trade st trade else st
  let st := { st with events := st.events ++ [.balancingTrade trade] }
  (trade, st)

/-- BalancingMarket.accept_offer (balancing.py lines 153-234).  The fee
policy feeFn stands for OneSidedMarket._update_offer_fee_and_calculate_final_price
(parent class, not under src/; modelled from the spec as a pure function of
(energy, trade_rate, energy_portion, orig_offer_price) returning the pair
(fee_amount, final_trade_price)).  The result carries the post-call market
state also on error, since a Python exception leaves prior mutations in
place. -/
def accept_offer (feeFn : ℚ → ℚ → ℚ → ℚ → ℚ × ℚ)
    (st : MarketState) (registry : List String)
    (offer_or_id : Nat) (buyer : String) (energy : Option ℚ)
    (already_tracked : Bool) (trade_rate : Option ℚ)
    (buyer_origin : Option String) :
    Except MarketErr BalancingTrade × MarketState :=
  if st.readonly then (.error .marketReadOnly, st)
  else
    match lookupD st.offers offer_or_id with
    | none => (.error .offerNotFound, st)
    | some offer =>
      let st := { st with offers := popD st.offers offer_or_id }
      match balancingSignCheck offer.energy energy with
      | .error e => (.error e, st)
      | .ok true =>
        (.error (.invalidBalancingTrade "BalancingOffer and energy are not compatible"), st)
      | .ok false =>
        let energy :=
          match energy with
          | none => offer.energy
          | some e => e
        let trade_rate :=
          match trade_rate with
          | none => offer.energy_rate
          | some r => r
        let orig_offer_price := _calculate_original_prices offer
        -- the try block of lines 181-209; on an exception the offer that was
        -- removed on line 163 is stored back into the book before re-raising
        let restore := { st with offers := setD st.offers offer.id offer }
        if energy = 0 then
          (.error (.invalidBalancingTrade "Energy can not be zero."), restore)
        else if |energy| < |offer.energy| then
          if ¬ (trade_rate + FLOATING_POINT_TOLERANCE ≥ offer.energy_rate) then
            (.error .assertionError, restore)
          else
            match split_offer st registry offer energy (some orig_offer_price) with
            | .error e => (.error e, restore)
            | .ok (accepted_offer, residual_offer, st) =>
              let feesAndPrice := feeFn energy trade_rate (energy / offer.energy) orig_offer_price
              let offer := accepted_offer.update_price feesAndPrice.2
              let (trade, st) := accept_offer_finish st offer (some residual_offer)
                feesAndPrice.1 buyer buyer_origin already_tracked
              (.ok trade, st)
        else if |energy| > |offer.energy| then
          (.error (.invalidBalancingTrade "Energy can't be greater than offered energy"), restore)
        else
          -- line 201-203: the right-hand side is a (fees, trade_price) pair
          -- when already_tracked is False but the bare scalar
          -- energy * trade_rate when it is True; Python tuple-unpacks it
          let rhs : (ℚ × ℚ) ⊕ ℚ :=
            if already_tracked = false then .inl (feeFn energy trade_rate 1 orig_offer_price)
            else .inr (energy * trade_rate)
          match rhs with
          | .inr _ => (.error .typeError, restore)
          | .inl feesAndPrice =>
            let offer := offer.update_price feesAndPrice.2
            let (trade, st) := accept_offer_finish st offer none
              feesAndPrice.1 buyer buyer_origin already_tracked
            (.ok trade, st)

/-- BalancingMarket.delete_balancing_offer (balancing.py lines 236-247); the
cached min/max/avg price recomputation touches fields outside the modelled
state. -/
def delete_balancing_offer (st : MarketState) (offer_or_id : Nat) :
    Except MarketErr MarketState :=
  if st.readonly then .error .marketReadOnly
  else
    match lookupD st.offers offer_or_id with
    | none => .error .offerNotFound
    | some offer =>
      let st := { st with offers := popD st.offers offer_or_id }
      .ok { st with events := st.events ++ [.balancingOfferDeleted offer] }

end BalancingMarket

/-- One record of the forwarding engine: the copies of the source-market
offer and of its mirror in the target market
(one_sided_engine.py OfferInfo). -/
structure OfferInfo where
  source_offer : BalancingOffer
  target_offer : BalancingOffer
deriving Repr, DecidableEq

/-- State owned by one IAAEngine: the first-seen-tick map and the
forwarded-offers map keyed from both sides of every record. -/
structure EngineState where
  offer_age : List (Nat × Nat)
  forwarded_offers : List (Nat × OfferInfo)
deriving Repr, DecidableEq

namespace IAAEngine

/-- IAAEngine._add_to_forward_offers (one_sided_engine.py lines 269-272):
store value copies of both offers under both ids. -/
def _add_to_forward_offers (eng : EngineState)
    (source_offer target_offer : BalancingOffer) : EngineState :=
  let offer_info : OfferInfo :=
    { source_offer := source_offer, target_offer := target_offer }
  let m := setD eng.forwarded_offers source_offer.id offer_info
  let m := setD m target_offer.id offer_info
  { eng with forwarded_offers := m }

/-- IAAEngine._delete_forwarded_offer_entries (one_sided_engine.py lines
89-94): pop the given id, then pop both ids of the record it resolved to. -/
def _delete_forwarded_offer_entries (eng : EngineState)
    (offer : BalancingOffer) : EngineState :=
  match lookupD eng.forwarded_offers offer.id with
  | none => eng
  | some offer_info =>
    let m := popD eng.forwarded_offers offer.id
    let m := popD m offer_info.target_offer.id
    let m := popD m offer_info.source_offer.id
    { eng with forwarded_offers := m }

/-- IAAEngine._forward_offer (one_sided_engine.py lines 69-87).  The call
owner.post_offer into the target market is a collaborator call; its outcome
is the oracle argument postOfferResult (a MarketException is absorbed and
the offer is simply not forwarded, any other exception propagates). -/
def _forward_offer (eng : EngineState) (offer : BalancingOffer)
    (postOfferResult : Except MarketErr BalancingOffer) :
    Except MarketErr (EngineState × Option BalancingOffer) :=
  if offer.price < 0 then .ok (eng, none)
  else
    match postOfferResult with
    | .error e =>
      if e.isMarketException then .ok (eng, none) else .error e
    | .ok forwarded_offer =>
      .ok (_add_to_forward_offers eng offer forwarded_offer, some forwarded_offer)

/-- The second loop of IAAEngine.propagate_offer (one_sided_engine.py lines
106-135), iterating over a snapshot of the offer_age dict while the live
dict is mutated.  Returns, besides the engine state, the list of source
offer ids that were handed to _forward_offer and forwarded.  The outcome of
owner.post_offer for each offer is the oracle postOffer. -/
def propagate_loop (source_offers : List (Nat × BalancingOffer))
    (usable : BalancingOffer → Bool) (owner_name : String)
    (min_offer_age : Nat) (current_tick : Nat)
    (postOffer : BalancingOffer → Except MarketErr BalancingOffer) :
    EngineState → List (Nat × Nat) → List Nat →
    Except MarketErr (EngineState × List Nat)
  | eng, [], fwd => .ok (eng, fwd)
  | eng, (offer_id, age) :: rest, fwd =>
    if (lookupD eng.forwarded_offers offer_id).isSome then
      propagate_loop source_offers usable owner_name min_offer_age
        current_tick postOffer eng rest fwd
    else if (current_tick : ℤ) - age < min_offer_age then
      propagate_loop source_offers usable owner_name min_offer_age
        current_tick postOffer eng rest fwd
    else
      match lookupD source_offers offer_id with
      | none =>
        -- offer has gone: remove from the age dict and continue
        let eng := { eng with offer_age := popD eng.offer_age offer_id }
        propagate_loop source_offers usable owner_name min_offer_age
          current_tick postOffer eng rest fwd
      | some offer =>
        if ¬ usable offer then
          -- forbidden offer (our counterpart's)
          let eng := { eng with offer_age := popD eng.offer_age offer_id }
          propagate_loop source_offers usable owner_name min_offer_age
            current_tick postOffer eng rest fwd
        else if owner_name = offer.seller then
          -- lines 125-130: should never be reached; the offer is never
          -- forwarded, the age entry is dropped and the loop continues
          let eng := { eng with offer_age := popD eng.offer_age offer_id }
          propagate_loop source_offers usable owner_name min_offer_age
            current_tick postOffer eng rest fwd
        else
          match _forward_offer eng offer (postOffer offer) with
          | .error e => .error e
          | .ok (eng, forwarded) =>
            let fwd := match forwarded with
              | some _ => fwd ++ [offer_id]
              | none => fwd
            propagate_loop source_offers usable owner_name min_offer_age
              current_tick postOffer eng rest fwd

/-- IAAEngine.propagate_offer (one_sided_engine.py lines 99-135): record the
first-seen tick of every source-book offer, then walk a snapshot of the age
dict, forwarding the aged eligible offers. -/
def propagate_offer (eng : EngineState)
    (source_offers : List (Nat × BalancingOffer))
    (usable : BalancingOffer → Bool) (owner_name : String)
    (min_offer_age : Nat) (current_tick : Nat)
    (postOffer : BalancingOffer → Except MarketErr BalancingOffer) :
    Except MarketErr (EngineState × List Nat) :=
  let ages := source_offers.foldl
    (fun ages p =>
      if (lookupD ages p.1).isSome then ages else ages ++ [(p.1, current_tick)])
    eng.offer_age
  let eng := { eng with offer_age := ages }
  propagate_loop source_offers usable owner_name min_offer_age current_tick
    postOffer eng eng.offer_age []

/-- IAAEngine.event_offer_traded (one_sided_engine.py lines 137-197) for a
trade with the given offer id.  The collaborator calls are oracles:
acceptResult is the outcome of owner.accept_offer on the source market
(target-side branch), deleteResult the outcome of owner.delete_offer on the
target market (source-side branch). -/
def event_offer_traded (eng : EngineState) (trade_offer_id : Nat)
    (acceptResult : Except MarketErr Unit)
    (deleteResult : Except MarketErr Unit) :
    Except MarketErr EngineState :=
  match lookupD eng.forwarded_offers trade_offer_id with
  | none => .ok eng  -- trade does not concern us
  | some offer_info =>
    if trade_offer_id = offer_info.target_offer.id then
      -- offer was accepted in the target market: buy in source
      let source_rate := offer_info.source_offer.energy_rate
      let target_rate := offer_info.target_offer.energy_rate
      if ¬ (|source_rate| ≤ |target_rate| + FLOATING_POINT_TOLERANCE) then
        .error .assertionError
      else
        match acceptResult with
        | .error .offerNotFound => .error .offerNotFound  -- re-raised, line 174-175
        | .error e => .error e
        | .ok _ =>
          let eng := _delete_forwarded_offer_entries eng offer_info.source_offer
          let eng := { eng with
            offer_age := popD eng.offer_age offer_info.source_offer.id }
          if (lookupD eng.forwarded_offers offer_info.source_offer.id).isSome ∨
             (lookupD eng.forwarded_offers offer_info.target_offer.id).isSome then
            .error .assertionError  -- lines 196-197
          else .ok eng
    else if trade_offer_id = offer_info.source_offer.id then
      -- offer was bought in the source market by another party
      let proceed : Except MarketErr EngineState :=
        let eng := _delete_forwarded_offer_entries eng offer_info.source_offer
        let eng := { eng with
          offer_age := popD eng.offer_age offer_info.source_offer.id }
        if (lookupD eng.forwarded_offers offer_info.source_offer.id).isSome ∨
           (lookupD eng.forwarded_offers offer_info.target_offer.id).isSome then
          .error .assertionError  -- lines 196-197
        else .ok eng
      match deleteResult with
      | .error .offerNotFound => proceed  -- pass, lines 186-187
      | .error e =>
        if e.isMarketException then proceed  -- logged, lines 188-189
        else .error e
      | .ok _ => proceed
    else
      .error .runtimeError  -- unknown state, line 194

/-- IAAEngine.event_offer_deleted (one_sided_engine.py lines 199-218);
deleteResult is the outcome of owner.delete_offer on the target market. -/
def event_offer_deleted (eng : EngineState) (offer : BalancingOffer)
    (deleteResult : Except MarketErr Unit) :
    Except MarketErr EngineState :=
  let eng :=
    if (lookupD eng.offer_age offer.id).isSome then
      { eng with offer_age := popD eng.offer_age offer.id }
    else eng
  match lookupD eng.forwarded_offers offer.id with
  | none => .ok eng  -- deletion does not concern us
  | some offer_info =>
    if offer_info.source_offer.id = offer.id then
      match deleteResult with
      | .ok _ => .ok (_delete_forwarded_offer_entries eng offer_info.source_offer)
      | .error e =>
        if e.isMarketException then .ok eng  -- logged; entries are not removed
        else .error e
    else .ok eng

/-- Which market an offer-split event came from, relative to one engine. -/
inductive MarketSide where
  | source
  | target
  | other
deriving Repr, DecidableEq

/-- IAAEngine.event_offer_split (one_sided_engine.py lines 220-267) for a
pair of balancing markets (the BalancingEngine inherits this method and its
markets implement split_offer as embedded above).  Returns the engine state
together with both market states. -/
def event_offer_split (eng : EngineState) (srcMkt tgtMkt : MarketState)
    (registry : List String) (side : MarketSide)
    (original_offer accepted_offer residual_offer : BalancingOffer)
    (usable : BalancingOffer → Bool) (owner_name : String) :
    Except MarketErr (EngineState × MarketState × MarketState) :=
  let transfer_age (eng : EngineState) : EngineState :=
    match lookupD eng.offer_age original_offer.id with
    | some a =>
      let ages := popD eng.offer_age original_offer.id
      { eng with offer_age := setD ages residual_offer.id a }
    | none => eng
  match side with
  | .other => .ok (eng, srcMkt, tgtMkt)
  | .target =>
    if (lookupD eng.forwarded_offers accepted_offer.id).isSome then
      match lookupD eng.forwarded_offers original_offer.id with
      | none => .error .keyError
      | some oi =>
        let local_offer := oi.source_offer
        let original_price :=
          match local_offer.original_price with
          | some p => p
          | none => local_offer.price
        match BalancingMarket.split_offer srcMkt registry local_offer
            accepted_offer.energy (some original_price) with
        | .error e => .error e
        | .ok (local_split_offer, local_residual_offer, srcMkt) =>
          let eng := _add_to_forward_offers eng local_residual_offer residual_offer
          let eng := _add_to_forward_offers eng local_split_offer accepted_offer
          .ok (transfer_age eng, srcMkt, tgtMkt)
    else .ok (eng, srcMkt, tgtMkt)
  | .source =>
    if (lookupD eng.forwarded_offers accepted_offer.id).isSome then
      if ¬ usable accepted_offer ∨ owner_name = accepted_offer.seller then
        .ok (eng, srcMkt, tgtMkt)
      else
        match lookupD eng.forwarded_offers original_offer.id with
        | none => .error .keyError
        | some oi =>
          -- line 246: the record's source_offer is taken as the local offer,
          -- and it is split in the target market
          let local_offer := oi.source_offer
          let original_price :=
            match local_offer.original_price with
            | some p => p
            | none => local_offer.price
          match BalancingMarket.split_offer tgtMkt registry local_offer
              accepted_offer.energy (some original_price) with
          | .error e => .error e
          | .ok (local_split_offer, local_residual_offer, tgtMkt) =>
            let eng := _add_to_forward_offers eng residual_offer local_residual_offer
            let eng := _add_to_forward_offers eng accepted_offer local_split_offer
            .ok (transfer_age eng, srcMkt, tgtMkt)
    else .ok (eng, srcMkt, tgtMkt)

end IAAEngine

/-! ## Concrete fixtures used by witnesses and counterexamples -/

/-- A concrete stand-in fee policy for concrete runs: zero fee, trade price
equal to energy times trade rate. -/
def feeLinear : ℚ → ℚ → ℚ → ℚ → ℚ × ℚ := fun e r _ _ => (0, e * r)

/-- An empty, writable balancing market whose fresh-id counter starts at 100. -/
def emptyMarket : MarketState :=
  { offers := [], offer_history := [], events := [], readonly := false,
    is_constant_fees := true, grid_fee_rate := 0,
    accumulated_supply_balancing_trade_price := 0,
    accumulated_supply_balancing_trade_energy := 0,
    accumulated_demand_balancing_trade_price := 0,
    accumulated_demand_balancing_trade_energy := 0,
    nextId := 100, nextTradeId := 0 }

/-- A supply balancing offer: price 20 for 10 units of energy, seller A. -/
def offerA : BalancingOffer :=
  { id := 1, price := 20, energy := 10, seller := "A",
    original_price := none, seller_origin := none }

/-- A market whose book holds exactly offerA. -/
def marketA : MarketState := { emptyMarket with offers := [(1, offerA)] }

/-- An engine with no ages and no forwarded offers. -/
def emptyEngine : EngineState := { offer_age := [], forwarded_offers := [] }

/-- Source side of a forwarded record with energy rate 1 (price 1, energy 1). -/
def sourceOfferC3 : BalancingOffer :=
  { id := 1, price := 1, energy := 1, seller := "A",
    original_price := none, seller_origin := none }

/-- Target side of a forwarded record with energy rate -5 (price 5 for
energy -1, a demand balancing offer): the absolute rates satisfy the coded
assertion although the signed spread is negative. -/
def targetOfferC3 : BalancingOffer :=
  { id := 2, price := 5, energy := -1, seller := "IAA House",
    original_price := none, seller_origin := none }

/-- An engine that forwarded sourceOfferC3 as targetOfferC3. -/
def engineC3 : EngineState :=
  IAAEngine._add_to_forward_offers emptyEngine sourceOfferC3 targetOfferC3

/-- Source side of a plain forwarded record: price 10 for 10 units. -/
def sourceOfferB : BalancingOffer :=
  { id := 1, price := 10, energy := 10, seller := "A",
    original_price := none, seller_origin := none }

/-- Target-side mirror of sourceOfferB, reposted by the agent. -/
def targetOfferB : BalancingOffer :=
  { id := 2, price := 10, energy := 10, seller := "IAA House",
    original_price := none, seller_origin := none }

/-- An engine that is aging source offer 1 and forwarded it as offer 2. -/
def engineB : EngineState :=
  IAAEngine._add_to_forward_offers
    { offer_age := [(1, 0)], forwarded_offers := [] } sourceOfferB targetOfferB

/-- The record held by engineB. -/
def recordB : OfferInfo :=
  { source_offer := sourceOfferB, target_offer := targetOfferB }

/-- The accepted fragment of a partial acceptance of sourceOfferB in the
source market: it keeps the original id 1. -/
def acceptedC7 : BalancingOffer :=
  { id := 1, price := 4, energy := 4, seller := "A",
    original_price := none, seller_origin := none }

/-- The residual fragment of that acceptance, under the fresh id 3. -/
def residualC7 : BalancingOffer :=
  { id := 3, price := 6, energy := 6, seller := "A",
    original_price := some 6, seller_origin := none }

/-- The source market holding sourceOfferB. -/
def sourceMarketC7 : MarketState := { emptyMarket with offers := [(1, sourceOfferB)] }

/-- The target market holding the mirror targetOfferB. -/
def targetMarketC7 : MarketState := { emptyMarket with offers := [(2, targetOfferB)] }

/-- The engine reaction of engineB to the source-market split event. -/
def runC7 : Except MarketErr (EngineState × MarketState × MarketState) :=
  IAAEngine.event_offer_split engineB sourceMarketC7 targetMarketC7 []
    .source sourceOfferB acceptedC7 residualC7 (fun _ => true) "IAA House"

/-- The engine state after the source-market split event. -/
def engineC7after : EngineState :=
  match runC7 with
  | .ok (e, _, _) => e
  | .error _ => emptyEngine

/-- An aged source offer whose seller is the agent owner itself. -/
def selfOfferC5 : BalancingOffer :=
  { id := 7, price := 10, energy := 10, seller := "Owner",
    original_price := none, seller_origin := none }

/-- An aged source offer of an ordinary third-party seller. -/
def otherOfferC5 : BalancingOffer :=
  { id := 8, price := 10, energy := 10, seller := "B",
    original_price := none, seller_origin := none }

/-- The outcome of owner.post_offer for the C5 run: the target market
accepts every submission and reposts it under a shifted id in the name of
the owner. -/
def postOfferC5 : BalancingOffer → Except MarketErr BalancingOffer :=
  fun o => .ok { o with id := o.id + 90, seller := "Owner" }

/-- A propagate step over a source book holding the owner-seller offer 7
and the third-party offer 8, with min_offer_age 0 at tick 5. -/
def runC5 : Except MarketErr (EngineState × List Nat) :=
  IAAEngine.propagate_offer emptyEngine [(7, selfOfferC5), (8, otherOfferC5)]
    (fun _ => true) "Owner" 0 5 postOfferC5

/-- The engine state after the C5 propagate step. -/
def engineC5after : EngineState :=
  match runC5 with
  | .ok (e, _) => e
  | .error _ => emptyEngine

/-! ## Association-list dictionary lemmas -/

theorem lookupD_cons {β : Type} (a : Nat) (b : β) (l : List (Nat × β)) (k : Nat) :
    lookupD ((a, b) :: l) k = if a = k then some b else lookupD l k := by
  by_cases h : a = k
  · simp [lookupD, List.find?_cons, h]
  · simp [lookupD, List.find?_cons, h]

theorem lookupD_popD_self {β : Type} (l : List (Nat × β)) (k : Nat) :
    lookupD (popD l k) k = none := by
  induction l with
  | nil => rfl
  | cons p l ih =>
    obtain ⟨a, b⟩ := p
    by_cases h : a = k
    · simpa [popD, List.filter_cons, h] using ih
    · simpa [popD, List.filter_cons, h, lookupD_cons] using ih

theorem lookupD_popD_ne {β : Type} (l : List (Nat × β)) (k k2 : Nat) (h : k2 ≠ k) :
    lookupD (popD l k) k2 = lookupD l k2 := by
  induction l with
  | nil => rfl
  | cons p l ih =>
    obtain ⟨a, b⟩ := p
    rw [lookupD_cons]
    by_cases ha : a = k
    · have hb : ¬ a = k2 := by omega
      rw [if_neg hb]
      have hp : popD ((a, b) :: l) k = popD l k := by
        simp [popD, List.filter_cons, ha]
      rw [hp]
      exact ih
    · have hp : popD ((a, b) :: l) k = (a, b) :: popD l k := by
        simp [popD, List.filter_cons, ha]
      by_cases hb : a = k2
      · rw [hp, lookupD_cons, if_pos hb, if_pos hb]
      · rw [hp, lookupD_cons, if_neg hb, if_neg hb]
        exact ih

theorem lookupD_append {β : Type} (l l2 : List (Nat × β)) (k : Nat) :
    lookupD (l ++ l2) k =
      match lookupD l k with
      | some v => some v
      | none => lookupD l2 k := by
  induction l with
  | nil => rfl
  | cons p l ih =>
    obtain ⟨a, b⟩ := p
    by_cases h : a = k
    · simp [lookupD_cons, h]
    · simp only [List.cons_append, lookupD_cons, h, if_false]
      exact ih

theorem setD_absent {β : Type} (l : List (Nat × β)) (k : Nat) (v : β)
    (h : lookupD l k = none) : setD l k v = l ++ [(k, v)] := by
  have : l.any (fun p => p.1 == k) = false := by
    induction l with
    | nil => rfl
    | cons p l ih =>
      obtain ⟨a, b⟩ := p
      by_cases ha : a = k
      · simp [lookupD_cons, ha] at h
      · simp [lookupD_cons, ha] at h
        simp [ha, ih h]
  simp [setD, this]

theorem lookupD_restore {β : Type} (l : List (Nat × β)) (k : Nat) (v : β)
    (h : lookupD l k = some v) (k2 : Nat) :
    lookupD (setD (popD l k) k v) k2 = lookupD l k2 := by
  rw [setD_absent _ _ _ (lookupD_popD_self l k), lookupD_append]
  by_cases hk : k2 = k
  · subst hk
    simp [lookupD_popD_self, h, lookupD_cons]
  · rw [lookupD_popD_ne _ _ _ hk]
    cases hl : lookupD l k2 with
    | some w => rfl
    | none =>
      rw [lookupD_cons, if_neg (fun hh => hk hh.symm)]
      rfl


/-! ## Helper lemmas about the engine and market operations -/

theorem balancingSignCheck_ok_of_compatible (E e : ℚ)
    (h : ¬ ((0 < E ∧ e < 0) ∨ (E < 0 ∧ 0 < e))) :
    BalancingMarket.balancingSignCheck E (some e) = .ok false := by
  push_neg at h
  obtain ⟨h1, h2⟩ := h
  unfold BalancingMarket.balancingSignCheck
  by_cases hE : 0 < E
  · simp [hE, not_lt.mpr (h1 hE)]
  · by_cases hE2 : E < 0
    · simp [hE, hE2, not_lt.mpr (h2 hE2)]
    · simp [hE, hE2]

theorem lookupD_delete_entries (eng : EngineState) (oi : OfferInfo)
    (hlook : lookupD eng.forwarded_offers oi.source_offer.id = some oi) :
    lookupD (IAAEngine._delete_forwarded_offer_entries eng
      oi.source_offer).forwarded_offers oi.source_offer.id = none ∧
    lookupD (IAAEngine._delete_forwarded_offer_entries eng
      oi.source_offer).forwarded_offers oi.target_offer.id = none ∧
    (IAAEngine._delete_forwarded_offer_entries eng oi.source_offer).offer_age =
      eng.offer_age := by
  simp only [IAAEngine._delete_forwarded_offer_entries, hlook]
  refine ⟨lookupD_popD_self _ _, ?_, ?_⟩
  case refine_2 => trivial
  by_cases h : oi.target_offer.id = oi.source_offer.id
  · rw [h]
    exact lookupD_popD_self _ _
  · rw [lookupD_popD_ne _ _ _ h]
    exact lookupD_popD_self _ _

theorem propagate_loop_forwarded_sellers
    (source_offers : List (Nat × BalancingOffer)) (usable : BalancingOffer → Bool)
    (owner_name : String) (min_offer_age current_tick : Nat)
    (postOffer : BalancingOffer → Except MarketErr BalancingOffer) :
    ∀ snapshot : List (Nat × Nat), ∀ eng fwd0 eng2 fwd,
      IAAEngine.propagate_loop source_offers usable owner_name min_offer_age
        current_tick postOffer eng snapshot fwd0 = .ok (eng2, fwd) →
      (∀ oid ∈ fwd0, ∃ offer, lookupD source_offers oid = some offer ∧
        owner_name ≠ offer.seller) →
      ∀ oid ∈ fwd, ∃ offer, lookupD source_offers oid = some offer ∧
        owner_name ≠ offer.seller := by
  intro snapshot
  induction snapshot with
  | nil =>
    intro eng fwd0 eng2 fwd hrun hacc
    simp only [IAAEngine.propagate_loop, Except.ok.injEq, Prod.mk.injEq] at hrun
    obtain ⟨h1, h2⟩ := hrun
    subst h2
    exact hacc
  | cons head tail ih =>
    intro eng fwd0 eng2 fwd hrun hacc
    obtain ⟨offer_id, age⟩ := head
    simp only [IAAEngine.propagate_loop] at hrun
    split at hrun
    · exact ih _ _ _ _ hrun hacc
    · split at hrun
      · exact ih _ _ _ _ hrun hacc
      · split at hrun
        · exact ih _ _ _ _ hrun hacc
        · rename_i offer hsrc
          split at hrun
          · exact ih _ _ _ _ hrun hacc
          · split at hrun
            · exact ih _ _ _ _ hrun hacc
            · rename_i husable hown
              split at hrun
              · exact absurd hrun (by simp)
              · rename_i res eng3 forwarded hforward
                cases forwarded with
                | none => exact ih _ _ _ _ hrun hacc
                | some f =>
                  refine ih _ _ _ _ hrun ?_
                  intro oid hmem
                  rcases List.mem_append.mp hmem with hin | hin
                  · exact hacc oid hin
                  · have : oid = offer_id := by simpa using hin
                    subst this
                    exact ⟨offer, hsrc, hown⟩

/-! ## Claim theorems -/

/-- C10: BalancingMarket.offer, the generic spot-market submission entry
point, unconditionally raises AssertionError for every argument tuple and
never stores an offer; balancing offers enter the book only through the
separate balancing_offer operation. -/
theorem c10_offer_always_asserts (st : MarketState) (price energy : ℚ)
    (seller : String) :
    BalancingMarket.offer st price energy seller = .error .assertionError := rfl

/-- C2 (failing input): a full-match acceptance of offerA with
already_tracked = True does not return a fee-policy-priced trade: the code
binds the tuple (fees, trade_price) to the bare scalar energy * trade_rate,
which raises TypeError, while the identical call with
already_tracked = False succeeds. -/
theorem c2_already_tracked_full_match_type_error :
    (BalancingMarket.accept_offer feeLinear marketA [] 1 "B" (some 10) true
      none none).1 = .error .typeError ∧
    (BalancingMarket.accept_offer feeLinear marketA [] 1 "B" (some 10) false
      none none).1.isOk = true := by
  norm_num [BalancingMarket.accept_offer, BalancingMarket.balancingSignCheck,
    BalancingMarket.accept_offer_finish, BalancingMarket._update_stats_after_trade,
    BalancingMarket._update_accumulated_trade_price_energy,
    BalancingMarket._calculate_original_prices, BalancingOffer.update_price,
    BalancingOffer.energy_rate, marketA, emptyMarket, offerA, feeLinear,
    lookupD, setD, popD, List.find?_cons, List.filter_cons, Except.isOk, Except.toBool, String.reduceEq]

/-- C8 (failing input): accepting offerA with the energy argument omitted
does not default to a full match: the sign check on balancing.py line 167
compares None with 0 before the None default of line 170 is applied, so the
call raises TypeError, and the offer, already popped from the book, is not
restored. -/
theorem c8_omitted_energy_type_error :
    (BalancingMarket.accept_offer feeLinear marketA [] 1 "B" none false
      none none).1 = .error .typeError ∧
    lookupD (BalancingMarket.accept_offer feeLinear marketA [] 1 "B" none false
      none none).2.offers 1 = none ∧
    lookupD marketA.offers 1 = some offerA := by
  norm_num [BalancingMarket.accept_offer, BalancingMarket.balancingSignCheck,
    marketA, emptyMarket, offerA, feeLinear,
    lookupD, setD, popD, List.find?_cons, List.filter_cons]

/-- C1 (counterexample): a sign-mismatch acceptance (energy -5 against the
positive-energy offerA) raises InvalidBalancingTradeException, yet the offer
book is not as before the call: the offer was popped on balancing.py line
163 and the restore of line 208 only covers the try block of lines 181-209,
which the sign check on line 167 precedes. -/
theorem c1_sign_mismatch_not_restored :
    (BalancingMarket.accept_offer feeLinear marketA [] 1 "B" (some (-5)) false
      none none).1 =
      .error (.invalidBalancingTrade "BalancingOffer and energy are not compatible") ∧
    lookupD (BalancingMarket.accept_offer feeLinear marketA [] 1 "B" (some (-5))
      false none none).2.offers 1 = none ∧
    lookupD marketA.offers 1 = some offerA := by
  norm_num [BalancingMarket.accept_offer, BalancingMarket.balancingSignCheck,
    marketA, emptyMarket, offerA, feeLinear,
    lookupD, setD, popD, List.find?_cons, List.filter_cons]

/-- C3 (counterexample): a trade of the forwarded record engineC3 in the
target market is processed without any error although the source rate (1)
exceeds the target rate (-5) plus the tolerance: the assertion on
one_sided_engine.py line 147 compares absolute values, not signed rates. -/
theorem c3_abs_assert_passes_negative_spread :
    (IAAEngine.event_offer_traded engineC3 2 (.ok ()) (.ok ())).isOk = true ∧
    ¬ (sourceOfferC3.energy_rate ≤ targetOfferC3.energy_rate +
        FLOATING_POINT_TOLERANCE) ∧
    lookupD engineC3.forwarded_offers 2 = some
      { source_offer := sourceOfferC3, target_offer := targetOfferC3 } := by
  norm_num [IAAEngine.event_offer_traded, IAAEngine._delete_forwarded_offer_entries,
    engineC3, emptyEngine, IAAEngine._add_to_forward_offers,
    sourceOfferC3, targetOfferC3, lookupD, setD, popD, List.find?_cons,
    List.filter_cons, BalancingOffer.energy_rate, FLOATING_POINT_TOLERANCE,
    Except.isOk, Except.toBool, String.reduceEq]

/-- C5 (counterexample): a propagate step that meets an aged, live, usable
source offer (id 7) whose seller equals the owner name completes normally
instead of stopping with an internal error: the offer is silently skipped
(its age entry dropped), and only the third-party offer 8 is forwarded. -/
theorem c5_self_seller_silently_skipped :
    runC5 = .ok (engineC5after, [8]) ∧
    lookupD engineC5after.forwarded_offers 7 = none ∧
    lookupD engineC5after.offer_age 7 = none := by
  norm_num [runC5, engineC5after, IAAEngine.propagate_offer, IAAEngine.propagate_loop,
    IAAEngine._forward_offer, IAAEngine._add_to_forward_offers, emptyEngine,
    selfOfferC5, otherOfferC5, postOfferC5, MarketErr.isMarketException,
    lookupD, setD, popD, List.find?_cons, List.filter_cons, String.reduceEq]
  simp [String.reduceEq]

/-- C6 (counterexample): when the forwarded record of engineB is traded in
the target market (offer id 2) and the cross-market owner.accept_offer call
finds the source offer already gone, event_offer_traded re-raises
OfferNotFoundException (one_sided_engine.py lines 174-175) instead of
absorbing it, and the ForwardRecord and age entry are left in place (the
error escapes before the deletion on lines 179-180). -/
theorem c6_target_branch_propagates_offer_not_found :
    IAAEngine.event_offer_traded engineB 2 (.error .offerNotFound) (.ok ()) =
      .error .offerNotFound ∧
    lookupD engineB.forwarded_offers 1 = some recordB ∧
    lookupD engineB.forwarded_offers 2 = some recordB := by
  norm_num [IAAEngine.event_offer_traded, engineB, IAAEngine._add_to_forward_offers,
    sourceOfferB, targetOfferB, recordB, lookupD, setD, popD, List.find?_cons,
    List.filter_cons, BalancingOffer.energy_rate, FLOATING_POINT_TOLERANCE]

/-- C7 (failing input): after the source-market split event of the forwarded
offer 1 (accepted fragment keeps id 1, residual gets id 3), the
forwarded_offers mapping of the engine violates the both-keys-same-record
invariant: the stale key 2 still resolves to the old record recordB while
recordB's source id 1 now resolves to a different record; the engine split
the record's source_offer in the target market (one_sided_engine.py line
246) instead of the target mirror.  A subsequent trade of the still-live
target mirror 2 then fails the engine's own post-deletion assertion
(lines 196-197). -/
theorem c7_split_source_branch_breaks_pairing :
    runC7.isOk = true ∧
    lookupD engineC7after.forwarded_offers 2 = some recordB ∧
    lookupD engineC7after.forwarded_offers recordB.source_offer.id ≠ some recordB ∧
    IAAEngine.event_offer_traded engineC7after 2 (.ok ()) (.ok ()) =
      .error .assertionError := by
  norm_num [runC7, engineC7after, IAAEngine.event_offer_split,
    IAAEngine.event_offer_traded, IAAEngine._delete_forwarded_offer_entries,
    IAAEngine._add_to_forward_offers, engineB, sourceMarketC7, targetMarketC7,
    BalancingMarket.split_offer, BalancingMarket.balancing_offer,
    BalancingMarket._calculate_original_prices, emptyMarket, emptyEngine,
    sourceOfferB, targetOfferB, acceptedC7, residualC7, recordB,
    lookupD, setD, popD, List.find?_cons, List.filter_cons,
    BalancingOffer.energy_rate, FLOATING_POINT_TOLERANCE, Except.isOk,
    Except.toBool, String.reduceEq]
  simp [String.reduceEq]

/-- C1 (amended): the rollback of accept_offer covers exactly the try block
of balancing.py lines 181-209: for the errors raised there - zero requested
energy, requested energy exceeding the offer's in magnitude, and the failed
trade-rate assertion - the offer popped on line 163 is stored back and every
book lookup is as before the call; the sign-mismatch error of line 167 is
raised before that region and leaves the offer removed (see the
counterexample). -/
theorem c1_rollback_try_region_restores (feeFn : ℚ → ℚ → ℚ → ℚ → ℚ × ℚ)
    (st : MarketState) (registry : List String) (oid : Nat) (buyer : String)
    (e : ℚ) (already_tracked : Bool) (trade_rate : Option ℚ)
    (buyer_origin : Option String) (offer : BalancingOffer)
    (hro : st.readonly = false)
    (hlook : lookupD st.offers oid = some offer)
    (hid : offer.id = oid)
    (hsign : ¬ ((0 < offer.energy ∧ e < 0) ∨ (offer.energy < 0 ∧ 0 < e)))
    (herr : e = 0 ∨ |offer.energy| < |e| ∨
      (|e| < |offer.energy| ∧
        ¬ ((match trade_rate with | none => offer.energy_rate | some r => r) +
            FLOATING_POINT_TOLERANCE ≥ offer.energy_rate))) :
    (∃ err, (BalancingMarket.accept_offer feeFn st registry oid buyer (some e)
        already_tracked trade_rate buyer_origin).1 = .error err) ∧
    ∀ k, lookupD (BalancingMarket.accept_offer feeFn st registry oid buyer
        (some e) already_tracked trade_rate buyer_origin).2.offers k =
      lookupD st.offers k := by
  have hsc := balancingSignCheck_ok_of_compatible offer.energy e hsign
  have hrestore : ∀ k, lookupD (setD (popD st.offers oid) offer.id offer) k =
      lookupD st.offers k := by
    intro k
    rw [hid]
    exact lookupD_restore st.offers oid offer hlook k
  rcases herr with he | he | ⟨hlt, hassert⟩
  · simp only [BalancingMarket.accept_offer, hro, Bool.false_eq_true, if_false,
      hlook, hsc, if_pos he]
    exact ⟨⟨_, rfl⟩, hrestore⟩
  · have hn1 : ¬ (|e| < |offer.energy|) := not_lt.mpr (le_of_lt he)
    simp only [BalancingMarket.accept_offer, hro, Bool.false_eq_true, if_false,
      hlook, hsc, if_neg hn1, if_pos he]
    by_cases he0 : e = 0
    · simp only [if_pos he0]
      exact ⟨⟨_, rfl⟩, hrestore⟩
    · simp only [if_neg he0]
      exact ⟨⟨_, rfl⟩, hrestore⟩
  · by_cases he0 : e = 0
    · simp only [BalancingMarket.accept_offer, hro, Bool.false_eq_true, if_false,
        hlook, hsc, if_pos he0]
      exact ⟨⟨_, rfl⟩, hrestore⟩
    · simp only [BalancingMarket.accept_offer, hro, Bool.false_eq_true, if_false,
        hlook, hsc, if_neg he0, if_pos hlt, if_pos hassert]
      exact ⟨⟨_, rfl⟩, hrestore⟩

/-- Witness for C1 at a concrete input: requesting zero energy from offerA
raises, and the book is restored. -/
theorem c1_rollback_try_region_restores_witness :
    (∃ err, (BalancingMarket.accept_offer feeLinear marketA [] 1 "B" (some 0)
        false none none).1 = .error err) ∧
    ∀ k, lookupD (BalancingMarket.accept_offer feeLinear marketA [] 1 "B"
        (some 0) false none none).2.offers k = lookupD marketA.offers k :=
  c1_rollback_try_region_restores feeLinear marketA [] 1 "B" 0 false none none
    offerA rfl rfl rfl (by simp [offerA]) (Or.inl rfl)

/-- C3 (amended): the rate assertion guarding a target-market trade of a
forwarded record compares absolute values: whenever the callback does not
halt with an AssertionError the record satisfies
abs source_rate <= abs target_rate + epsilon, and a violation of that
absolute-value inequality halts the callback (one_sided_engine.py lines
143-148); the signed inequality of the claim is not what is checked (see
the counterexample). -/
theorem c3_abs_rate_assertion (eng : EngineState) (tid : Nat) (oi : OfferInfo)
    (a d : Except MarketErr Unit)
    (hlook : lookupD eng.forwarded_offers tid = some oi)
    (htgt : tid = oi.target_offer.id) :
    (¬ (|oi.source_offer.energy_rate| ≤ |oi.target_offer.energy_rate| +
        FLOATING_POINT_TOLERANCE) →
      IAAEngine.event_offer_traded eng tid a d = .error .assertionError) ∧
    (∀ eng2, IAAEngine.event_offer_traded eng tid a d = .ok eng2 →
      |oi.source_offer.energy_rate| ≤ |oi.target_offer.energy_rate| +
        FLOATING_POINT_TOLERANCE) := by
  subst htgt
  constructor
  · intro hviol
    simp only [IAAEngine.event_offer_traded, hlook, if_pos rfl, if_pos hviol,
      if_true]
  · intro eng2 heq
    by_contra hviol
    simp only [IAAEngine.event_offer_traded, hlook, if_pos rfl, if_pos hviol,
      if_true] at heq
    exact absurd heq (by simp)

/-- Witness for C3 at a concrete input: the record of engineB traded in the
target market under id 2. -/
theorem c3_abs_rate_assertion_witness :
    (¬ (|recordB.source_offer.energy_rate| ≤ |recordB.target_offer.energy_rate| +
        FLOATING_POINT_TOLERANCE) →
      IAAEngine.event_offer_traded engineB 2 (.ok ()) (.ok ()) =
        .error .assertionError) ∧
    (∀ eng2, IAAEngine.event_offer_traded engineB 2 (.ok ()) (.ok ()) = .ok eng2 →
      |recordB.source_offer.energy_rate| ≤ |recordB.target_offer.energy_rate| +
        FLOATING_POINT_TOLERANCE) :=
  c3_abs_rate_assertion engineB 2 recordB (.ok ()) (.ok ()) rfl rfl

/-- C4: splitting a balancing offer of energy E and price P at accepted
energy a with 0 < abs a < abs E produces an accepted and a residual offer
with accepted.energy + residual.energy = E and
accepted.price + residual.price = P exactly (rational arithmetic), and the
residual's original_price is the linear proportion (E - a) / E of the
original offer's pre-fee price (the orig_offer_price argument when given,
e._calculate_original_prices otherwise). -/
theorem c4_split_conservation (st : MarketState) (registry : List String)
    (o : BalancingOffer) (a : ℚ) (origP : Option ℚ)
    (hro : st.readonly = false)
    (h1 : 0 < |a|) (h2 : |a| < |o.energy|) :
    ∃ acc res st2,
      BalancingMarket.split_offer st registry o a origP = .ok (acc, res, st2) ∧
      acc.energy + res.energy = o.energy ∧
      acc.price + res.price = o.price ∧
      res.original_price = some (((o.energy - a) / o.energy) *
        (match origP with
         | some p => p
         | none => BalancingMarket._calculate_original_prices o)) := by
  have ha : a ≠ 0 := by
    intro h
    rw [h] at h1
    simp at h1
  have hE : o.energy ≠ 0 := by
    intro h
    rw [h] at h2
    simp at h2
    exact absurd h2 (not_lt.mpr (abs_nonneg a))
  have hres : o.energy - a ≠ 0 := by
    intro h
    rw [sub_eq_zero] at h
    rw [← h] at h2
    exact absurd h2 (lt_irrefl _)
  simp only [BalancingMarket.split_offer, BalancingMarket.balancing_offer,
    not_true, and_false, if_false, hro, Bool.false_eq_true, if_neg ha,
    if_neg hres]
  refine ⟨_, _, _, rfl, ?_, ?_, ?_⟩
  · ring
  · field_simp
    ring
  · rfl

/-- Witness for C4 at a concrete input: offerA split at energy 4. -/
theorem c4_split_conservation_witness :
    ∃ acc res st2,
      BalancingMarket.split_offer marketA [] offerA 4 none = .ok (acc, res, st2) ∧
      acc.energy + res.energy = offerA.energy ∧
      acc.price + res.price = offerA.price ∧
      res.original_price = some (((offerA.energy - 4) / offerA.energy) *
        (match (none : Option ℚ) with
         | some p => p
         | none => BalancingMarket._calculate_original_prices offerA)) :=
  c4_split_conservation marketA [] offerA 4 none rfl (by norm_num)
    (by norm_num [offerA])

/-- C5 (amended): the propagate step never forwards an offer whose seller is
the owner's own name - every id that a successful propagate_offer run
reports as forwarded belongs to a source-book offer whose seller differs
from the owner - but the condition is skipped silently (age entry dropped,
loop continues) rather than treated as a fatal error (see the
counterexample). -/
theorem c5_self_seller_never_forwarded (eng : EngineState)
    (source_offers : List (Nat × BalancingOffer))
    (usable : BalancingOffer → Bool) (owner_name : String)
    (min_offer_age current_tick : Nat)
    (postOffer : BalancingOffer → Except MarketErr BalancingOffer)
    (eng2 : EngineState) (fwd : List Nat)
    (hrun : IAAEngine.propagate_offer eng source_offers usable owner_name
      min_offer_age current_tick postOffer = .ok (eng2, fwd)) :
    ∀ oid ∈ fwd, ∃ offer, lookupD source_offers oid = some offer ∧
      owner_name ≠ offer.seller := by
  simp only [IAAEngine.propagate_offer] at hrun
  exact propagate_loop_forwarded_sellers source_offers usable owner_name
    min_offer_age current_tick postOffer _ _ _ _ _ hrun (by simp)

/-- Witness for C5 at a concrete input: the run of runC5 forwards exactly
offer 8, whose seller B differs from the owner. -/
theorem c5_self_seller_never_forwarded_witness :
    ∃ offer, lookupD [(7, selfOfferC5), (8, otherOfferC5)] 8 = some offer ∧
      "Owner" ≠ offer.seller :=
  c5_self_seller_never_forwarded emptyEngine [(7, selfOfferC5), (8, otherOfferC5)]
    (fun _ => true) "Owner" 0 5 postOfferC5 engineC5after [8] rfl 8 (by simp)

/-- C6 (amended): in the source-trade branch of event_offer_traded (the
forwarded offer was bought in the source market by another party), an
OfferNotFound raised by the cross-market deletion of the target mirror is
absorbed: the callback completes without error and still removes both keys
of the ForwardRecord and the age entry; the target-trade branch instead
re-raises OfferNotFound, and event_offer_deleted absorbs the error but then
skips the record removal (see the counterexample). -/
theorem c6_source_branch_absorbs_offer_not_found (eng : EngineState)
    (oi : OfferInfo) (a : Except MarketErr Unit)
    (hlook : lookupD eng.forwarded_offers oi.source_offer.id = some oi)
    (hne : oi.source_offer.id ≠ oi.target_offer.id) :
    ∃ eng2,
      IAAEngine.event_offer_traded eng oi.source_offer.id a
        (.error .offerNotFound) = .ok eng2 ∧
      lookupD eng2.forwarded_offers oi.source_offer.id = none ∧
      lookupD eng2.forwarded_offers oi.target_offer.id = none ∧
      lookupD eng2.offer_age oi.source_offer.id = none := by
  obtain ⟨h1, h2, h3⟩ := lookupD_delete_entries eng oi hlook
  refine ⟨{ IAAEngine._delete_forwarded_offer_entries eng oi.source_offer with
            offer_age := popD (IAAEngine._delete_forwarded_offer_entries eng
              oi.source_offer).offer_age oi.source_offer.id }, ?_, ?_, ?_, ?_⟩
  · simp only [IAAEngine.event_offer_traded, hlook, if_neg hne, if_pos rfl]
    simp only [h1, h2, Option.isSome_none, Bool.false_eq_true, or_self, if_false]
    exact if_pos trivial
  · exact h1
  · exact h2
  · exact lookupD_popD_self _ _

/-- Witness for C6 at a concrete input: the record of engineB traded in the
source market under id 1 while the target-side deletion reports
OfferNotFound. -/
theorem c6_source_branch_absorbs_offer_not_found_witness :
    ∃ eng2,
      IAAEngine.event_offer_traded engineB recordB.source_offer.id (.ok ())
        (.error .offerNotFound) = .ok eng2 ∧
      lookupD eng2.forwarded_offers recordB.source_offer.id = none ∧
      lookupD eng2.forwarded_offers recordB.target_offer.id = none ∧
      lookupD eng2.offer_age recordB.source_offer.id = none :=
  c6_source_branch_absorbs_offer_not_found engineB recordB (.ok ()) rfl
    (by decide)

/-- C9: a partial acceptance of a balancing offer returns a trade whose
accepted fragment carries the original offer's id, a residual fragment under
the market's fresh id (distinct from the original id by uuid uniqueness,
here the hypothesis on nextId), and the notifications are emitted with
BALANCING_OFFER_SPLIT strictly before BALANCING_TRADE. -/
theorem c9_partial_accept_ids_and_event_order (feeFn : ℚ → ℚ → ℚ → ℚ → ℚ × ℚ)
    (st : MarketState) (registry : List String) (oid : Nat) (buyer : String)
    (a : ℚ) (already_tracked : Bool) (buyer_origin : Option String)
    (offer : BalancingOffer)
    (hro : st.readonly = false)
    (hlook : lookupD st.offers oid = some offer)
    (hsign : ¬ ((0 < offer.energy ∧ a < 0) ∨ (offer.energy < 0 ∧ 0 < a)))
    (h1 : 0 < |a|) (h2 : |a| < |offer.energy|)
    (hfresh : st.nextId ≠ offer.id) :
    ∃ trade st2 acc res,
      BalancingMarket.accept_offer feeFn st registry oid buyer (some a)
        already_tracked none buyer_origin = (.ok trade, st2) ∧
      trade.offer_bid.id = offer.id ∧
      trade.residual = some res ∧
      res.id = st.nextId ∧
      res.id ≠ offer.id ∧
      acc.id = offer.id ∧
      st2.events = st.events ++
        [.balancingOfferSplit offer acc res, .balancingTrade trade] := by
  have hsc := balancingSignCheck_ok_of_compatible offer.energy a hsign
  have ha : a ≠ 0 := by
    intro h
    rw [h] at h1
    simp at h1
  have hres : offer.energy - a ≠ 0 := by
    intro h
    rw [sub_eq_zero] at h
    rw [← h] at h2
    exact absurd h2 (lt_irrefl _)
  have hge : ¬ ¬ (offer.energy_rate + FLOATING_POINT_TOLERANCE ≥
      offer.energy_rate) := by
    rw [not_not]
    exact le_add_of_nonneg_right (by norm_num [FLOATING_POINT_TOLERANCE])
  cases already_tracked with
  | false =>
    simp only [BalancingMarket.accept_offer, hro, Bool.false_eq_true, if_false,
      hlook, hsc, if_neg ha, if_pos h2, if_neg hge,
      BalancingMarket.split_offer, BalancingMarket.balancing_offer,
      not_true, and_false, if_neg hres, BalancingMarket.accept_offer_finish,
      BalancingOffer.update_price]
    refine ⟨_, _,
      { id := offer.id, price := offer.price * (a / offer.energy), energy := a,
        seller := offer.seller, original_price := none,
        seller_origin := offer.seller_origin }, _,
      rfl, rfl, rfl, rfl, fun hcon => hfresh hcon, rfl, ?_⟩
    simp [BalancingMarket._update_stats_after_trade,
      BalancingMarket._update_accumulated_trade_price_energy,
      apply_ite MarketState.events]
  | true =>
    simp only [BalancingMarket.accept_offer, hro, Bool.false_eq_true, if_false,
      hlook, hsc, if_neg ha, if_pos h2, if_neg hge,
      BalancingMarket.split_offer, BalancingMarket.balancing_offer,
      not_true, and_false, if_neg hres, BalancingMarket.accept_offer_finish,
      BalancingOffer.update_price]
    refine ⟨_, _,
      { id := offer.id, price := offer.price * (a / offer.energy), energy := a,
        seller := offer.seller, original_price := none,
        seller_origin := offer.seller_origin }, _,
      rfl, rfl, rfl, rfl, fun hcon => hfresh hcon, rfl, ?_⟩
    simp

/-- Witness for C9 at a concrete input: offerA partially accepted at
energy 4 in marketA. -/
theorem c9_partial_accept_ids_and_event_order_witness :
    ∃ trade st2 acc res,
      BalancingMarket.accept_offer feeLinear marketA [] 1 "B" (some 4)
        false none none = (.ok trade, st2) ∧
      trade.offer_bid.id = offerA.id ∧
      trade.residual = some res ∧
      res.id = marketA.nextId ∧
      res.id ≠ offerA.id ∧
      acc.id = offerA.id ∧
      st2.events = marketA.events ++
        [.balancingOfferSplit offerA acc res, .balancingTrade trade] :=
  c9_partial_accept_ids_and_event_order feeLinear marketA [] 1 "B" 4 false none
    offerA rfl rfl (by simp [offerA]) (by norm_num) (by norm_num [offerA])
    (by decide)

end GsyE
